import Mathlib

/-!
Verification of the REGOS API dispatcher and its token-bucket rate limiter
(`src/regos/api.py`, `src/regos/regos_rate_limiter.py`), as a shallow
embedding: Python floats and monotonic timestamps become rationals,
JSON values become an inductive type, and the network is an explicit
environment (a stream of responses) consumed by the request functions.
-/

/-- JSON-like values, the payloads and response bodies exchanged with the
REGOS API (`response.json()` results and `request_data` arguments). -/
inductive Json where
  | null : Json
  | bool (b : Bool) : Json
  | num (q : ℚ) : Json
  | str (s : String) : Json
  | arr (xs : List Json) : Json
  | obj (fields : List (String × Json)) : Json

/-- Python dictionary lookup `d.get(key)`: `some` value for a present key of
an object, `none` for an absent key; non-objects yield `none` (the dispatcher
only ever calls `.get` on decoded JSON objects). -/
def Json.get (j : Json) (key : String) : Option Json :=
  match j with
  | .obj fields => fields.lookup key
  | _ => none

/-- Python truthiness of a JSON value, as tested by `if not data.get("ok")`. -/
def Json.isTruthy : Json → Bool
  | .null => false
  | .bool b => b
  | .num q => q ≠ 0
  | .str s => s ≠ ""
  | .arr xs => !xs.isEmpty
  | .obj fields => !fields.isEmpty

/-- Truthiness of `d.get(key)`: Python's `None` (an absent key) is falsy. -/
def truthyOpt : Option Json → Bool
  | none => false
  | some v => v.isTruthy

/-- Python `str()` of a JSON scalar, as interpolated into the f-string error
details; containers are rendered JSON-style (approximating Python's `repr`,
which the dispatcher's error paths only reach for malformed upstream data). -/
def Json.pyStr : Json → String
  | .null => "None"
  | .bool true => "True"
  | .bool false => "False"
  | .num q => if q.den = 1 then toString q.num else toString q
  | .str s => s
  | .arr _ => "[...]"
  | .obj _ => "\x7b...\x7d"

/-- JSON string literal encoding used by `json.dumps` (quote and backslash
escaped; other characters passed through). -/
def Json.encodeString (s : String) : String :=
  "\"" ++ s.foldl (fun acc c =>
    acc ++ (if c = '\"' then "\\\"" else if c = '\\' then "\\\\" else String.singleton c)) "" ++ "\""

mutual

/-- The body serialisation `json.dumps(request_data)` with Python's default
separators (`", "` between items, `": "` after keys). -/
def Json.encode : Json → String
  | .null => "null"
  | .bool true => "true"
  | .bool false => "false"
  | .num q => if q.den = 1 then toString q.num else toString q
  | .str s => Json.encodeString s
  | .arr xs => "[" ++ Json.encodeList xs ++ "]"
  | .obj fields => "\x7b" ++ Json.encodeFields fields ++ "\x7d"

/-- Comma-separated encoding of a JSON array's elements. -/
def Json.encodeList : List Json → String
  | [] => ""
  | [x] => Json.encode x
  | x :: y :: xs => Json.encode x ++ ", " ++ Json.encodeList (y :: xs)

/-- Comma-separated encoding of a JSON object's key/value pairs. -/
def Json.encodeFields : List (String × Json) → String
  | [] => ""
  | [(k, v)] => Json.encodeString k ++ ": " ++ Json.encode v
  | (k, v) :: p :: fields =>
      Json.encodeString k ++ ": " ++ Json.encode v ++ ", " ++ Json.encodeFields (p :: fields)

end

/-- Python `int(x)` on a real quantity: truncation toward zero, as applied to
`self.tokens + elapsed * self.rate` in the limiter's refill step. -/
def truncQ (q : ℚ) : ℤ :=
  if 0 ≤ q then ⌊q⌋ else ⌈q⌉

/-- State of `RegosRateLimiter` (`src/regos/regos_rate_limiter.py`): `rate`
tokens added per second, `capacity` the burst size, `tokens` the bucket
content, `updated_at` the monotonic timestamp of the last refill. The Python
field `tokens` always holds an `int`; it is embedded as a rational so that the
specification's real-valued refill can be stated over the same state type. -/
structure RegosRateLimiter where
  rate : ℚ
  capacity : ℤ
  tokens : ℚ
  updated_at : ℚ
deriving DecidableEq

/-- The constructor `RegosRateLimiter.__init__(rate, burst)`: no validation is
performed; `tokens` starts at `burst`, `updated_at` at the current monotonic
time (passed here explicitly as `now`). -/
def RegosRateLimiter.init (rate : ℚ) (burst : ℤ) (now : ℚ) : RegosRateLimiter :=
  { rate := rate, capacity := burst, tokens := (burst : ℚ), updated_at := now }

/-- Result of one complete `acquire()` call: the limiter's state afterwards
and the duration passed to `asyncio.sleep` (`0` on the fast path). -/
structure AcquireResult where
  limiter : RegosRateLimiter
  sleep : ℚ
deriving DecidableEq

/-- `RegosRateLimiter.acquire()` at monotonic time `now`: refill to
`min(capacity, int(tokens + elapsed * rate))`, stamp `updated_at := now`; if
the refilled bucket holds less than one token, sleep `(1 - tokens) / rate`
seconds and set `tokens := 0`, otherwise consume one token immediately. -/
def RegosRateLimiter.acquire (l : RegosRateLimiter) (now : ℚ) : AcquireResult :=
  let elapsed := now - l.updated_at
  let refilled : ℤ := min l.capacity (truncQ (l.tokens + elapsed * l.rate))
  if refilled < 1 then
    { limiter := { l with updated_at := now, tokens := 0 },
      sleep := (1 - (refilled : ℚ)) / l.rate }
  else
    { limiter := { l with updated_at := now, tokens := ((refilled - 1 : ℤ) : ℚ) },
      sleep := 0 }

/-- The acquisition algorithm as the specification words it, for comparison
with the implementation: the refill keeps the real-number value
`min(capacity, tokens + elapsed*rate)` with no truncation, and the wait on an
under-full bucket is `(1 - tokens) / rate` for that real token count. -/
def RegosRateLimiter.acquireSpec (l : RegosRateLimiter) (now : ℚ) : AcquireResult :=
  let elapsed := now - l.updated_at
  let refilled : ℚ := min (l.capacity : ℚ) (l.tokens + elapsed * l.rate)
  if refilled < 1 then
    { limiter := { l with updated_at := now, tokens := 0 },
      sleep := (1 - refilled) / l.rate }
  else
    { limiter := { l with updated_at := now, tokens := refilled - 1 },
      sleep := 0 }

/-- The construction guard as the specification words it: reject `rate ≤ 0`
or `capacity ≤ 0` with a `ConfigurationError` (here: `none`), for comparison
with the unguarded implementation constructor. -/
def RegosRateLimiter.initChecked (rate : ℚ) (burst : ℤ) (now : ℚ) : Option RegosRateLimiter :=
  if 0 < rate ∧ 0 < burst then some (RegosRateLimiter.init rate burst now) else none

/-- One response of the network environment to a POST attempt: an HTTP status
with a decoded JSON body, an `asyncio.TimeoutError`, or an
`aiohttp.ClientError` with its message. -/
inductive NetResult where
  | http (status : ℤ) (body : Json) : NetResult
  | timedOut : NetResult
  | clientError (message : String) : NetResult

/-- The `HTTPException` raised by the asynchronous dispatcher: an HTTP status
code for the caller and a human-readable detail string. -/
structure HTTPException where
  status_code : ℤ
  detail : String

/-- An HTTP request as issued by the dispatcher: method, full URL, the header
list, and the serialised body. -/
structure HttpRequest where
  method : String
  url : String
  headers : List (String × String)
  body : String

/-- The full REGOS endpoint URL
`f"https://integration.regos.uz/gateway/out/{token}/v1/{endpoint}"`. -/
def regosUrl (token endpoint : String) : String :=
  "https://integration.regos.uz/gateway/out/" ++ token ++ "/v1/" ++ endpoint

/-- The headers dictionary built by both request functions. -/
def regosHeaders : List (String × String) :=
  [("Content-Type", "application/json;charset=utf-8")]

/-- The POST request both dispatcher variants send: the REGOS URL for the
given token and endpoint, the fixed content-type header, and
`json.dumps(request_data)` as the body. -/
def buildRegosRequest (endpoint : String) (request_data : Json) (token : String) : HttpRequest :=
  { method := "POST"
    url := regosUrl token endpoint
    headers := regosHeaders
    body := Json.encode request_data }

/-- Observable actions of a dispatcher run, in order: a limiter admission
(`acquire`) or a network POST.  The event vocabulary includes `acquire` so
that admission-control properties can be stated about the traces the
dispatcher actually produces. -/
inductive DispatchEvent where
  | acquire (token : String) : DispatchEvent
  | post (req : HttpRequest) : DispatchEvent

/-- Whether an event is a limiter admission. -/
def DispatchEvent.isAcquire : DispatchEvent → Bool
  | .acquire _ => true
  | .post _ => false

/-- Whether an event is a network POST. -/
def DispatchEvent.isPost : DispatchEvent → Bool
  | .acquire _ => false
  | .post _ => true

/-- A completed asynchronous run: the events it performed and either the
decoded response body (the function's return value) or the `HTTPException`
it raised. -/
structure AsyncRunResult where
  trace : List DispatchEvent
  outcome : Except HTTPException Json

/-- Classification of one network result by `regos_async_api_request`:
status 200 with a truthy `ok` returns the body; status 200 with a falsy `ok`
raises `HTTPException(400)` carrying the upstream `result.error` and
`result.description` (defaults `"Unknown"` / `"Unknown error"`); any other
status raises `HTTPException(502)`; a timeout raises `HTTPException(504)`;
a client error raises `HTTPException(502)`. -/
def classifyResponse (timeout_seconds : ℤ) : NetResult → Except HTTPException Json
  | .http status body =>
      if status = 200 then
        if truthyOpt (body.get "ok") = false then
          let error_info := (body.get "result").getD (Json.obj [])
          let error_code := (error_info.get "error").getD (Json.str "Unknown")
          let error_desc := (error_info.get "description").getD (Json.str "Unknown error")
          Except.error
            { status_code := 400
              detail := "REGOS API error " ++ error_code.pyStr ++ ": " ++ error_desc.pyStr }
        else
          Except.ok body
      else
        Except.error
          { status_code := 502
            detail := "REGOS API returned status code " ++ toString status }
  | .timedOut =>
      Except.error
        { status_code := 504
          detail := "REGOS API request timed out after " ++ toString timeout_seconds ++ " seconds" }
  | .clientError message =>
      Except.error
        { status_code := 502
          detail := "REGOS API client error: " ++ message }

/-- `regos_async_api_request(endpoint, request_data, token, timeout_seconds)`
over a network environment `net` (the response to the n-th POST of the
session): the function builds the REGOS request, performs exactly one POST —
there is no limiter acquisition and no retry loop in the source — and
classifies the single response it consumes. -/
def regos_async_api_request (endpoint : String) (request_data : Json) (token : String)
    (timeout_seconds : ℤ) (net : ℕ → NetResult) : AsyncRunResult :=
  let req := buildRegosRequest endpoint request_data token
  { trace := [DispatchEvent.post req]
    outcome := classifyResponse timeout_seconds (net 0) }

/-- A completed synchronous run: the events it performed and the function's
return value — the decoded body on status 200, `None` otherwise. -/
structure SyncRunResult where
  trace : List DispatchEvent
  outcome : Option Json

/-- `regos_api_request(endpoint, request_data, token)`: the synchronous
variant builds the same REGOS request, performs one POST, returns
`response.json()` on status 200 and `None` (after logging) on any other
status. -/
def regos_api_request (endpoint : String) (request_data : Json) (token : String)
    (status : ℤ) (body : Json) : SyncRunResult :=
  let req := buildRegosRequest endpoint request_data token
  { trace := [DispatchEvent.post req]
    outcome := if status = 200 then some body else none }

/-- A successful REGOS response body: `ok` true with result `x = 1`. -/
def okBody : Json :=
  Json.obj [("ok", Json.bool true), ("result", Json.obj [("x", Json.num 1)])]

/-- A logically failed REGOS response body: `ok` false with upstream error
code `E1` and description `bad`. -/
def businessErrorBody : Json :=
  Json.obj [("ok", Json.bool false),
            ("result", Json.obj [("error", Json.str "E1"), ("description", Json.str "bad")])]

/-- A network environment answering 429 to the first POST and 200 with a
successful body to every later POST. -/
def net429 : ℕ → NetResult :=
  fun n => if n = 0 then NetResult.http 429 (Json.obj []) else NetResult.http 200 okBody

/-- A network environment answering every POST with the same result. -/
def netAlways (r : NetResult) : ℕ → NetResult := fun _ => r

/-- A limiter with the default configuration (rate 2, burst 50) whose bucket
has been drained to zero tokens at monotonic time 0. -/
def limiter0 : RegosRateLimiter :=
  { rate := 2, capacity := 50, tokens := 0, updated_at := 0 }

theorem RegosRateLimiter.acquire_limiter_updated_at (l : RegosRateLimiter) (now : ℚ) :
    (l.acquire now).limiter.updated_at = now := by
  simp only [RegosRateLimiter.acquire]
  split <;> rfl

theorem RegosRateLimiter.acquire_limiter_rate (l : RegosRateLimiter) (now : ℚ) :
    (l.acquire now).limiter.rate = l.rate := by
  simp only [RegosRateLimiter.acquire]
  split <;> rfl

theorem RegosRateLimiter.acquire_limiter_capacity (l : RegosRateLimiter) (now : ℚ) :
    (l.acquire now).limiter.capacity = l.capacity := by
  simp only [RegosRateLimiter.acquire]
  split <;> rfl

theorem RegosRateLimiter.acquire_limiter_tokens (l : RegosRateLimiter) (now : ℚ) :
    (l.acquire now).limiter.tokens =
      (if min l.capacity (truncQ (l.tokens + (now - l.updated_at) * l.rate)) < 1 then (0 : ℚ)
       else ((min l.capacity (truncQ (l.tokens + (now - l.updated_at) * l.rate)) - 1 : ℤ) : ℚ)) := by
  simp only [RegosRateLimiter.acquire]
  split
  next => rfl
  next => rfl

theorem RegosRateLimiter.acquire_sleep_eq (l : RegosRateLimiter) (now : ℚ) :
    (l.acquire now).sleep =
      (if min l.capacity (truncQ (l.tokens + (now - l.updated_at) * l.rate)) < 1
       then (1 - ((min l.capacity (truncQ (l.tokens + (now - l.updated_at) * l.rate)) : ℤ) : ℚ)) / l.rate
       else 0) := by
  simp only [RegosRateLimiter.acquire]
  split
  next => rfl
  next => rfl

/-- Claim C3 counterexample: on a drained default limiter (rate 2, tokens 0)
acquired a quarter second later, the elapsed refill credit is 1/2 token; the
claimed real-number refill would leave tokens = 1/2 and wait (1 - 1/2)/2 = 1/4
seconds, but the implementation truncates the refill to 0 tokens and waits
(1 - 0)/2 = 1/2 seconds. -/
theorem c3_counterexample :
    (limiter0.acquire (1/4)).sleep = 1/2 ∧
    (limiter0.acquireSpec (1/4)).sleep = 1/4 ∧
    ((1 : ℚ)/2) ≠ ((1 : ℚ)/4) := by
  refine ⟨?_, ?_, by norm_num⟩
  · rw [RegosRateLimiter.acquire_sleep_eq]
    norm_num [limiter0, truncQ]
  · simp only [RegosRateLimiter.acquireSpec, limiter0]
    norm_num

/-- Claim C3 (amended): `acquire()` refills tokens to the integer
`min(capacity, int(tokens + elapsed*rate))` — the fractional part of the
refill credit is truncated away, not kept as a real number — and updates the
last-refill timestamp to now; then, if the refilled count is at least 1 it
consumes exactly one token with no wait, and if it is below 1 it waits
`(1 - tokens)/rate` seconds for the truncated count and sets tokens to 0. -/
theorem c3_acquire_refill_truncated (l : RegosRateLimiter) (now : ℚ) :
    (l.acquire now).limiter.updated_at = now ∧
    (l.acquire now).limiter.rate = l.rate ∧
    (l.acquire now).limiter.capacity = l.capacity ∧
    (l.acquire now).limiter.tokens =
      (if min l.capacity (truncQ (l.tokens + (now - l.updated_at) * l.rate)) < 1 then (0 : ℚ)
       else ((min l.capacity (truncQ (l.tokens + (now - l.updated_at) * l.rate)) - 1 : ℤ) : ℚ)) ∧
    (l.acquire now).sleep =
      (if min l.capacity (truncQ (l.tokens + (now - l.updated_at) * l.rate)) < 1
       then (1 - ((min l.capacity (truncQ (l.tokens + (now - l.updated_at) * l.rate)) : ℤ) : ℚ)) / l.rate
       else 0) :=
  ⟨RegosRateLimiter.acquire_limiter_updated_at l now,
   RegosRateLimiter.acquire_limiter_rate l now,
   RegosRateLimiter.acquire_limiter_capacity l now,
   RegosRateLimiter.acquire_limiter_tokens l now,
   RegosRateLimiter.acquire_sleep_eq l now⟩

/-- Claim C4: for a limiter constructed with positive rate and capacity the
invariant `0 ≤ tokens ≤ capacity` holds at construction, and a completed
`acquire()` call on any limiter state with positive capacity re-establishes
it for the resulting state. -/
theorem c4_tokens_invariant (rate : ℚ) (burst : ℤ) (t0 now : ℚ) (l : RegosRateLimiter)
    (hrate : 0 < rate) (hburst : 0 < burst) (hcap : 0 < l.capacity)
    (hlow : 0 ≤ l.tokens) (hhigh : l.tokens ≤ (l.capacity : ℚ)) :
    (0 ≤ (RegosRateLimiter.init rate burst t0).tokens ∧
      (RegosRateLimiter.init rate burst t0).tokens ≤
        ((RegosRateLimiter.init rate burst t0).capacity : ℚ)) ∧
    (0 ≤ (l.acquire now).limiter.tokens ∧
      (l.acquire now).limiter.tokens ≤ ((l.acquire now).limiter.capacity : ℚ)) := by
  refine ⟨⟨?_, ?_⟩, ?_⟩
  · simp only [RegosRateLimiter.init]
    exact_mod_cast hburst.le
  · simp only [RegosRateLimiter.init]
    exact le_refl _
  · rw [RegosRateLimiter.acquire_limiter_tokens, RegosRateLimiter.acquire_limiter_capacity]
    have hmin : min l.capacity (truncQ (l.tokens + (now - l.updated_at) * l.rate)) ≤ l.capacity :=
      min_le_left _ _
    split
    next h =>
      constructor
      · exact le_refl 0
      · exact_mod_cast hcap.le
    next h =>
      push_neg at h
      constructor
      · exact_mod_cast (by omega : (0 : ℤ) ≤ min l.capacity (truncQ (l.tokens + (now - l.updated_at) * l.rate)) - 1)
      · exact_mod_cast (by omega : min l.capacity (truncQ (l.tokens + (now - l.updated_at) * l.rate)) - 1 ≤ l.capacity)

/-- Claim C4 witness: the invariant theorem applied to the default
configuration (rate 2, burst 50) and to an acquisition on the drained
limiter `limiter0`. -/
theorem c4_tokens_invariant_witness :
    (0 ≤ (RegosRateLimiter.init 2 50 0).tokens ∧
      (RegosRateLimiter.init 2 50 0).tokens ≤ ((RegosRateLimiter.init 2 50 0).capacity : ℚ)) ∧
    (0 ≤ (limiter0.acquire 0).limiter.tokens ∧
      (limiter0.acquire 0).limiter.tokens ≤ ((limiter0.acquire 0).limiter.capacity : ℚ)) :=
  c4_tokens_invariant 2 50 0 0 limiter0 (by norm_num) (by norm_num)
    (by norm_num [limiter0]) (by norm_num [limiter0]) (by norm_num [limiter0])

/-- Claim C5 counterexample: the constructor performs no parameter
validation — called with the invalid pair rate = -1, burst = -5 it still
produces a limiter object carrying exactly those values, while the
specification's guard (`initChecked`) rejects the same pair. -/
theorem c5_counterexample :
    RegosRateLimiter.initChecked (-1) (-5) 0 = none ∧
    (RegosRateLimiter.init (-1) (-5) 0).rate = -1 ∧
    (RegosRateLimiter.init (-1) (-5) 0).capacity = -5 ∧
    (RegosRateLimiter.init (-1) (-5) 0).tokens = -5 ∧
    (RegosRateLimiter.init (-1) (-5) 0).updated_at = 0 := by
  refine ⟨?_, rfl, rfl, by norm_num [RegosRateLimiter.init], rfl⟩
  simp only [RegosRateLimiter.initChecked, if_neg]
  norm_num

/-- Claim C5 (amended): construction never fails — `__init__` validates
nothing and succeeds for every rate/burst pair, storing the given rate and
burst and starting the bucket full (`tokens = burst`); it agrees with the
specification's guarded constructor exactly when both parameters are
strictly positive. -/
theorem c5_no_construction_guard (rate : ℚ) (burst : ℤ) (t0 : ℚ) :
    (RegosRateLimiter.init rate burst t0).rate = rate ∧
    (RegosRateLimiter.init rate burst t0).capacity = burst ∧
    (RegosRateLimiter.init rate burst t0).tokens = (burst : ℚ) ∧
    (RegosRateLimiter.init rate burst t0).updated_at = t0 ∧
    (RegosRateLimiter.initChecked rate burst t0 = some (RegosRateLimiter.init rate burst t0)
      ↔ 0 < rate ∧ 0 < burst) := by
  refine ⟨rfl, rfl, rfl, rfl, ?_⟩
  unfold RegosRateLimiter.initChecked
  split
  next h => simpa using h
  next h => simpa using h

theorem truncQ_intCast_add_fract (k : ℤ) (f : ℚ) (hk : 0 ≤ k) (hf0 : 0 ≤ f) (hf1 : f < 1) :
    truncQ ((k : ℚ) + f) = k := by
  have hq : (0 : ℚ) ≤ (k : ℚ) + f := by positivity
  rw [truncQ, if_pos hq]
  rw [Int.floor_eq_iff]
  constructor
  · linarith
  · linarith

/-- Claim C10: tokens is integral — after construction (with a non-negative
burst) and after every completed `acquire()` it is a non-negative integer;
the refill unconditionally stamps `updated_at := now`; and when the elapsed
refill credit `elapsed*rate` is below one whole token, the truncation
discards it entirely: the post-state tokens are exactly what a zero-credit
refill would give, `min(capacity, tokens)` less the consumed token. -/
theorem c10_tokens_integral (rate : ℚ) (burst : ℤ) (t0 : ℚ) (l : RegosRateLimiter)
    (now : ℚ) (k : ℤ) :
    (0 ≤ burst → ∃ m : ℤ, (RegosRateLimiter.init rate burst t0).tokens = (m : ℚ) ∧ 0 ≤ m) ∧
    (∃ m : ℤ, (l.acquire now).limiter.tokens = (m : ℚ) ∧ 0 ≤ m) ∧
    (l.acquire now).limiter.updated_at = now ∧
    (l.tokens = (k : ℚ) → 0 ≤ k →
      0 ≤ (now - l.updated_at) * l.rate → (now - l.updated_at) * l.rate < 1 →
      (l.acquire now).limiter.tokens =
        ((if min l.capacity k < 1 then 0 else min l.capacity k - 1 : ℤ) : ℚ)) := by
  refine ⟨fun hb => ⟨burst, rfl, hb⟩, ?_, RegosRateLimiter.acquire_limiter_updated_at l now, ?_⟩
  · rw [RegosRateLimiter.acquire_limiter_tokens]
    split
    next h => exact ⟨0, by norm_num⟩
    next h =>
      push_neg at h
      exact ⟨min l.capacity (truncQ (l.tokens + (now - l.updated_at) * l.rate)) - 1,
             rfl, by omega⟩
  · intro htok hk hf0 hf1
    rw [RegosRateLimiter.acquire_limiter_tokens, htok,
        truncQ_intCast_add_fract k ((now - l.updated_at) * l.rate) hk hf0 hf1]
    split
    next => norm_num
    next => rfl

/-- Claim C10 witness: the integrality theorem applied to the default
configuration and to an immediate re-acquisition on the drained limiter
`limiter0`, whose elapsed refill credit is 0 < 1. -/
theorem c10_tokens_integral_witness :
    (∃ m : ℤ, (RegosRateLimiter.init 2 50 0).tokens = (m : ℚ) ∧ 0 ≤ m) ∧
    (∃ m : ℤ, (limiter0.acquire 0).limiter.tokens = (m : ℚ) ∧ 0 ≤ m) ∧
    (limiter0.acquire 0).limiter.updated_at = 0 ∧
    (limiter0.acquire 0).limiter.tokens =
      ((if min limiter0.capacity 0 < 1 then 0 else min limiter0.capacity 0 - 1 : ℤ) : ℚ) := by
  have h := c10_tokens_integral 2 50 0 limiter0 0 0
  exact ⟨h.1 (by norm_num), h.2.1, h.2.2.1,
         h.2.2.2 (by norm_num [limiter0]) le_rfl (by norm_num [limiter0]) (by norm_num [limiter0])⟩

/-- Claim C1 counterexample: on the simulated sequence 429 then 200 with a
successful body, `regos_async_api_request` performs no retry at all — it
issues exactly one POST, never consumes the second response, and surfaces the
rate-limited rejection to the caller as `HTTPException(502)` instead of
yielding the success payload. -/
theorem c1_counterexample :
    (regos_async_api_request "Partner/Get" (Json.obj []) "token123" 30 net429).outcome =
      Except.error { status_code := 502, detail := "REGOS API returned status code 429" } ∧
    ((regos_async_api_request "Partner/Get" (Json.obj []) "token123" 30 net429).trace.countP
      (fun e => e.isPost)) = 1 ∧
    (regos_async_api_request "Partner/Get" (Json.obj []) "token123" 30 net429).outcome ≠
      Except.ok (Json.obj [("x", Json.num 1)]) := by
  refine ⟨rfl, rfl, ?_⟩
  intro h
  simp only [regos_async_api_request, net429, classifyResponse] at h
  exact Except.noConfusion h

/-- Claim C1 (amended): an HTTP 429 response is not transient for the
dispatcher — whenever the first response is a 429, `regos_async_api_request`
makes exactly one attempt (a single POST, no delay, no retry) and raises
`HTTPException(502, "REGOS API returned status code 429")` to the caller. -/
theorem c1_429_not_retried (endpoint : String) (request_data : Json) (token : String)
    (timeout_seconds : ℤ) (net : ℕ → NetResult) (body : Json)
    (hnet : net 0 = NetResult.http 429 body) :
    (regos_async_api_request endpoint request_data token timeout_seconds net).outcome =
      Except.error { status_code := 502, detail := "REGOS API returned status code 429" } ∧
    ((regos_async_api_request endpoint request_data token timeout_seconds net).trace.countP
      (fun e => e.isPost)) = 1 := by
  constructor
  · show classifyResponse timeout_seconds (net 0) = _
    rw [hnet]
    rfl
  · rfl

/-- Claim C1 witness: the amended theorem applied to the simulated sequence
429 then 200. -/
theorem c1_429_not_retried_witness :
    (regos_async_api_request "DocumentType/Get" (Json.obj []) "token123" 30 net429).outcome =
      Except.error { status_code := 502, detail := "REGOS API returned status code 429" } ∧
    ((regos_async_api_request "DocumentType/Get" (Json.obj []) "token123" 30 net429).trace.countP
      (fun e => e.isPost)) = 1 :=
  c1_429_not_retried "DocumentType/Get" (Json.obj []) "token123" 30 net429 (Json.obj []) rfl

/-- Claim C2 counterexample: a concrete successful run of
`regos_async_api_request` sends its POST with no admission step at all — its
event trace is exactly one POST and contains no `acquire`, so the POST is not
preceded by any rate-limiter admission. -/
theorem c2_counterexample :
    (regos_async_api_request "Partner/Get" (Json.obj []) "token123" 30
        (netAlways (NetResult.http 200 okBody))).trace =
      [DispatchEvent.post (buildRegosRequest "Partner/Get" (Json.obj []) "token123")] ∧
    ((regos_async_api_request "Partner/Get" (Json.obj []) "token123" 30
        (netAlways (NetResult.http 200 okBody))).trace.countP
      (fun e => e.isAcquire)) = 0 :=
  ⟨rfl, rfl⟩

/-- Claim C2 (amended): on every call and under every network environment,
`regos_async_api_request` issues exactly one POST and performs no limiter
admission whatsoever — the `RegosRateLimiter` class exists in the repository
but the dispatcher never invokes `acquire()`. -/
theorem c2_no_admission_before_post (endpoint : String) (request_data : Json) (token : String)
    (timeout_seconds : ℤ) (net : ℕ → NetResult) :
    ((regos_async_api_request endpoint request_data token timeout_seconds net).trace.countP
      (fun e => e.isPost)) = 1 ∧
    ((regos_async_api_request endpoint request_data token timeout_seconds net).trace.countP
      (fun e => e.isAcquire)) = 0 :=
  ⟨rfl, rfl⟩

/-- Claim C6: an HTTP 200 response whose `ok` flag is `false` yields the
business-error outcome — `HTTPException(400)` whose detail carries exactly
the upstream error code (`result.error`) and description
(`result.description`). -/
theorem c6_business_error (endpoint : String) (request_data : Json) (token : String)
    (timeout_seconds : ℤ) (net : ℕ → NetResult) (body r : Json) (c d : String)
    (hnet : net 0 = NetResult.http 200 body)
    (hok : body.get "ok" = some (Json.bool false))
    (hres : body.get "result" = some r)
    (herr : r.get "error" = some (Json.str c))
    (hdesc : r.get "description" = some (Json.str d)) :
    (regos_async_api_request endpoint request_data token timeout_seconds net).outcome =
      Except.error { status_code := 400,
                     detail := "REGOS API error " ++ c ++ ": " ++ d } := by
  show classifyResponse timeout_seconds (net 0) = _
  rw [hnet]
  simp [classifyResponse, hok, hres, herr, hdesc, truthyOpt, Json.isTruthy, Json.pyStr]

/-- Claim C6 witness: the classification theorem applied to the simulated 200
response with body ok false, error E1, description bad. -/
theorem c6_business_error_witness :
    (regos_async_api_request "Partner/Get" (Json.obj []) "token123" 30
        (netAlways (NetResult.http 200 businessErrorBody))).outcome =
      Except.error { status_code := 400, detail := "REGOS API error E1: bad" } :=
  c6_business_error "Partner/Get" (Json.obj []) "token123" 30
    (netAlways (NetResult.http 200 businessErrorBody)) businessErrorBody
    (Json.obj [("error", Json.str "E1"), ("description", Json.str "bad")]) "E1" "bad"
    rfl rfl rfl rfl rfl

/-- Claim C8: the two request paths disagree on failure conventions — on any
non-200 status, the synchronous `regos_api_request` returns `None` (it only
logs the error) while the asynchronous `regos_async_api_request` raises a
typed `HTTPException(502)` naming the status. -/
theorem c8_failure_conventions_differ (endpoint : String) (request_data : Json) (token : String)
    (timeout_seconds status : ℤ) (body : Json) (net : ℕ → NetResult)
    (hstatus : status ≠ 200) (hnet : net 0 = NetResult.http status body) :
    (regos_api_request endpoint request_data token status body).outcome = none ∧
    (regos_async_api_request endpoint request_data token timeout_seconds net).outcome =
      Except.error { status_code := 502,
                     detail := "REGOS API returned status code " ++ toString status } := by
  constructor
  · simp [regos_api_request, hstatus]
  · show classifyResponse timeout_seconds (net 0) = _
    rw [hnet]
    simp [classifyResponse, hstatus]

/-- Claim C8 witness: the convention theorem applied to a 404 response. -/
theorem c8_failure_conventions_differ_witness :
    (regos_api_request "Partner/Get" (Json.obj []) "token123" 404 Json.null).outcome = none ∧
    (regos_async_api_request "Partner/Get" (Json.obj []) "token123" 30
        (netAlways (NetResult.http 404 Json.null))).outcome =
      Except.error { status_code := 502, detail := "REGOS API returned status code 404" } :=
  c8_failure_conventions_differ "Partner/Get" (Json.obj []) "token123" 30 404 Json.null
    (netAlways (NetResult.http 404 Json.null)) (by norm_num) rfl

/-- Claim C9: every POST either dispatcher variant issues goes to
`https://integration.regos.uz/gateway/out/<token>/v1/<endpoint>`, carries the
single header `Content-Type: application/json;charset=utf-8`, and has the
JSON-encoded payload as its body. -/
theorem c9_wire_protocol (endpoint : String) (request_data : Json) (token : String)
    (timeout_seconds status : ℤ) (body : Json) (net : ℕ → NetResult) (r : HttpRequest)
    (hmem : DispatchEvent.post r ∈
        (regos_async_api_request endpoint request_data token timeout_seconds net).trace ∨
      DispatchEvent.post r ∈ (regos_api_request endpoint request_data token status body).trace) :
    r.method = "POST" ∧
    r.url = "https://integration.regos.uz/gateway/out/" ++ token ++ "/v1/" ++ endpoint ∧
    r.headers = [("Content-Type", "application/json;charset=utf-8")] ∧
    r.body = Json.encode request_data := by
  have hr : r = buildRegosRequest endpoint request_data token := by
    rcases hmem with h | h <;>
      simpa [regos_async_api_request, regos_api_request] using h
  subst hr
  exact ⟨rfl, rfl, rfl, rfl⟩

/-- Claim C9 witness: the wire-protocol theorem applied to the request sent
by a concrete asynchronous run. -/
theorem c9_wire_protocol_witness :
    (buildRegosRequest "Partner/Get" (Json.obj []) "token123").method = "POST" ∧
    (buildRegosRequest "Partner/Get" (Json.obj []) "token123").url =
      "https://integration.regos.uz/gateway/out/" ++ "token123" ++ "/v1/" ++ "Partner/Get" ∧
    (buildRegosRequest "Partner/Get" (Json.obj []) "token123").headers =
      [("Content-Type", "application/json;charset=utf-8")] ∧
    (buildRegosRequest "Partner/Get" (Json.obj []) "token123").body =
      Json.encode (Json.obj []) :=
  c9_wire_protocol "Partner/Get" (Json.obj []) "token123" 30 404 Json.null
    (netAlways (NetResult.http 200 okBody))
    (buildRegosRequest "Partner/Get" (Json.obj []) "token123")
    (Or.inl (by simp [regos_async_api_request]))
